import Mathlib

/-!
Verification of the MCP WebSocket ticket server (Go) against its
natural-language specification.

The repository contains two near-duplicate server variants, both speaking
the same JSON envelope over a per-connection read-dispatch-write loop:

* the canonical variant (README-documented): `handleWebSocket`,
  `handleRequest`, `handleInitialize`, `handleToolsList`, `handleToolCall`,
  `sendError`, using JSON-RPC numeric error codes (-32700 parse error,
  -32601 method not found, -32602 invalid params);
* the `wsHandler` variant (`main.go`): a single dispatch switch with string
  error codes (INVALID_JSON, MISSING_TOOL_NAME, TOOL_NOT_FOUND,
  UNKNOWN_METHOD), a global `tickets` list filtered by `ticketsByStatus`,
  and a `meta` object (count, args) attached to tool results.

Both are embedded below.  Values that Go holds as `interface{}` / raw JSON
are modelled by the `Json` inductive; Go's `json.Unmarshal` into the typed
`ToolCallParams` struct is modelled by `decodeToolCallParams` following
Go's decoding semantics (null is a no-op, absent fields keep zero values,
type mismatches are errors, for duplicate keys the last value wins).
-/

namespace MCPServer

/-- A JSON value, as decoded from a wire frame.  Models Go's
`interface{}` / `json.RawMessage` payloads. -/
inductive Json where
  | null : Json
  | bool : Bool → Json
  | num : Int → Json
  | str : String → Json
  | arr : List Json → Json
  | obj : List (String × Json) → Json

/-- Association-list lookup where the LAST binding for a key wins,
matching Go's JSON object decoding (later duplicate keys overwrite
earlier ones). -/
def lookupLast (k : String) : List (String × Json) → Option Json
  | [] => none
  | (k', v) :: rest =>
    match lookupLast k rest with
    | some r => some r
    | none => if k' = k then some v else none

/-- A ticket: `type Ticket struct { ID, Title, Status string }`. -/
structure Ticket where
  id : String
  title : String
  status : String
deriving DecidableEq

/-- Encoding of a `Ticket` as a JSON object (the shape `json.Marshal`
produces from the struct tags `id`, `title`, `status`). -/
def ticketJson (t : Ticket) : Json :=
  Json.obj [("id", Json.str t.id), ("title", Json.str t.title),
            ("status", Json.str t.status)]

/-- The dummy ticket store of `main.go`: `var tickets = []Ticket{...}`. -/
def tickets : List Ticket :=
  [⟨"T1", "Fix login bug", "pending"⟩,
   ⟨"T2", "Database indexing", "pending"⟩,
   ⟨"T10", "Payment integration", "done"⟩,
   ⟨"T11", "Email system", "done"⟩,
   ⟨"T20", "Create dashboard UI", "todo"⟩,
   ⟨"T21", "Add search filter", "todo"⟩]

/-- `func ticketsByStatus(status string) []Ticket`: appends, in order,
every ticket of `tickets` whose status equals `status`. -/
def ticketsByStatus (status : String) : List Ticket :=
  tickets.filter (fun t => t.status == status)

/-! ## Canonical variant: message structs and handlers -/

/-- `type MCPRequest struct { ID, Method string; Params json.RawMessage }`.
`params` is `none` when the field was absent (a nil `RawMessage`). -/
structure MCPRequest where
  id : String
  method : String
  params : Option Json

/-- `type MCPError struct { Code int; Message string }`. -/
structure MCPError where
  code : Int
  message : String
deriving DecidableEq

/-- `type MCPResponse struct { ID string; Result interface{}; Error *MCPError }`
with `omitempty` on both `result` and `error`. -/
structure MCPResponse where
  id : String
  result : Option Json
  error : Option MCPError

/-- `type ToolCallParams struct { Name string; Arguments map[string]interface{} }`. -/
structure ToolCallParams where
  name : String
  arguments : Option (List (String × Json))

/-- Decoding one field of `ToolCallParams.Name` per Go semantics:
absent or JSON null leaves the zero value `""`, a string is taken
verbatim, anything else is an `UnmarshalTypeError`. -/
def decodeNameField (v : Option Json) : Except Unit String :=
  match v with
  | none => Except.ok ""
  | some Json.null => Except.ok ""
  | some (Json.str s) => Except.ok s
  | some _ => Except.error ()

/-- Decoding `ToolCallParams.Arguments` per Go semantics: absent or JSON
null leaves the nil map, an object is taken verbatim, anything else is an
`UnmarshalTypeError`. -/
def decodeArgumentsField (v : Option Json) : Except Unit (Option (List (String × Json))) :=
  match v with
  | none => Except.ok none
  | some Json.null => Except.ok none
  | some (Json.obj m) => Except.ok (some m)
  | some _ => Except.error ()

/-- `json.Unmarshal(req.Params, &params)` for `ToolCallParams`: fails on a
nil `RawMessage` (absent params) and on any non-object, non-null payload;
JSON null is a no-op leaving zero values; unknown keys are ignored. -/
def decodeToolCallParams (params : Option Json) : Except Unit ToolCallParams :=
  match params with
  | none => Except.error ()
  | some Json.null => Except.ok ⟨"", none⟩
  | some (Json.obj fields) =>
    match decodeNameField (lookupLast "name" fields),
          decodeArgumentsField (lookupLast "arguments" fields) with
    | Except.ok n, Except.ok a => Except.ok ⟨n, a⟩
    | _, _ => Except.error ()
  | some _ => Except.error ()

/-- The fixed result of `handleInitialize`. -/
def initializeResult : Json :=
  Json.obj
    [("protocolVersion", Json.str "1.0"),
     ("serverInfo", Json.obj
        [("name", Json.str "go-mcp-demo"), ("version", Json.str "1.0.0")]),
     ("capabilities", Json.obj
        [("tools", Json.obj
           [("call", Json.obj [("enabled", Json.bool true)]),
            ("list", Json.obj [("enabled", Json.bool true),
                               ("listChanged", Json.bool false)])])])]

/-- `func handleInitialize(req MCPRequest) MCPResponse`. -/
def handleInitialize (req : MCPRequest) : MCPResponse :=
  { id := req.id, result := some initializeResult, error := none }

/-- One tool descriptor of `handleToolsList`. -/
def toolDescriptor (name description : String) : Json :=
  Json.obj [("name", Json.str name), ("description", Json.str description),
            ("inputSchema", Json.obj [("type", Json.str "object"),
                                      ("properties", Json.obj [])])]

/-- The fixed result of `handleToolsList`: the three tool descriptors. -/
def toolsListResult : Json :=
  Json.obj [("tools", Json.arr
    [toolDescriptor "get_pending_tickets" "Returns a list of pending tickets",
     toolDescriptor "get_done_tickets" "Returns a list of completed tickets",
     toolDescriptor "get_todo_tickets" "Returns a list of todo tickets"])]

/-- `func handleToolsList(req MCPRequest) MCPResponse`. -/
def handleToolsList (req : MCPRequest) : MCPResponse :=
  { id := req.id, result := some toolsListResult, error := none }

/-- The hard-coded pending list returned by `handleToolCall` for
`get_pending_tickets`. -/
def pendingTickets : List Ticket :=
  [⟨"T1", "Fix login bug", "pending"⟩, ⟨"T2", "Database indexing", "pending"⟩]

/-- The hard-coded done list returned by `handleToolCall` for
`get_done_tickets`. -/
def doneTickets : List Ticket :=
  [⟨"T10", "Payment integration", "done"⟩, ⟨"T11", "Email system", "done"⟩]

/-- The hard-coded todo list returned by `handleToolCall` for
`get_todo_tickets`. -/
def todoTickets : List Ticket :=
  [⟨"T20", "Create dashboard UI", "todo"⟩, ⟨"T21", "Add search filter", "todo"⟩]

/-- `TicketsResponse{Tickets: ts}` marshalled: `{"tickets": [...]}`. -/
def ticketsResponseJson (ts : List Ticket) : Json :=
  Json.obj [("tickets", Json.arr (ts.map ticketJson))]

/-- `func handleToolCall(req MCPRequest) MCPResponse`: unmarshal params
(failure → code -32602 "Invalid params"), then switch on the tool name;
an unknown name → code -32602 "Unknown tool: `name`". -/
def handleToolCall (req : MCPRequest) : MCPResponse :=
  match decodeToolCallParams req.params with
  | Except.error _ =>
    { id := req.id, result := none,
      error := some ⟨-32602, "Invalid params"⟩ }
  | Except.ok params =>
    if params.name = "get_pending_tickets" then
      { id := req.id, result := some (ticketsResponseJson pendingTickets),
        error := none }
    else if params.name = "get_done_tickets" then
      { id := req.id, result := some (ticketsResponseJson doneTickets),
        error := none }
    else if params.name = "get_todo_tickets" then
      { id := req.id, result := some (ticketsResponseJson todoTickets),
        error := none }
    else
      { id := req.id, result := none,
        error := some ⟨-32602, "Unknown tool: " ++ params.name⟩ }

/-- `func handleRequest(req MCPRequest) MCPResponse`: the method router.
An unrecognized method → code -32601 "Method not found: `method`". -/
def handleRequest (req : MCPRequest) : MCPResponse :=
  if req.method = "initialize" then handleInitialize req
  else if req.method = "tools/list" then handleToolsList req
  else if req.method = "tools/call" then handleToolCall req
  else
    { id := req.id, result := none,
      error := some ⟨-32601, "Method not found: " ++ req.method⟩ }

/-- One iteration of the `handleWebSocket` read loop, given the decode
outcome of a successfully read frame: if `json.Unmarshal` failed the loop
calls `sendError(conn, "", -32700, "Parse error")` and continues,
otherwise it writes `handleRequest req`. -/
def sessionStep (frame : Option MCPRequest) : MCPResponse :=
  match frame with
  | none => { id := "", result := none, error := some ⟨-32700, "Parse error"⟩ }
  | some req => handleRequest req

/-- The `handleWebSocket` loop over a finite run of successfully read
frames (the run ends when a read fails or the peer closes): one response
is written per frame, in order. -/
def sessionRun (frames : List (Option MCPRequest)) : List MCPResponse :=
  frames.map sessionStep

/-! ## The `wsHandler` variant (`main.go`) -/

/-- `main.go`'s `MCPRequest`: `Params map[string]interface{}`.  A request
whose frame decoded successfully; an absent params field leaves a nil map,
modelled as the empty association list. -/
structure WsRequest where
  id : String
  method : String
  params : List (String × Json)

/-- An error object of the `wsHandler` variant:
`map[string]interface{}{"code": ..., "message": ...}` with string codes. -/
structure WsError where
  code : String
  message : String
deriving DecidableEq

/-- `main.go`'s `MCPResponse`: `ID`, optional `Method`, optional `Result`,
optional `Error` (all `omitempty`). -/
structure WsResponse where
  id : String
  method : Option String
  result : Option Json
  error : Option WsError

/-- The fixed result of the `initialize` branch of `wsHandler`. -/
def wsInitializeResult : Json :=
  Json.obj
    [("status", Json.str "initialized"),
     ("server", Json.str "go-mcp-tickets"),
     ("tools", Json.arr
        [Json.obj [("name", Json.str "get_pending_tickets"),
                   ("description", Json.str "Get pending tickets")],
         Json.obj [("name", Json.str "get_done_tickets"),
                   ("description", Json.str "Get done tickets")],
         Json.obj [("name", Json.str "get_todo_tickets"),
                   ("description", Json.str "Get todo tickets")]])]

/-- How `wsHandler` marshals the optional args map into `meta.args`:
a nil Go map marshals to JSON null, a non-nil map to an object. -/
def wsArgsJson (args : Option (List (String × Json))) : Json :=
  match args with
  | none => Json.null
  | some m => Json.obj m

/-- A tool result of `wsHandler`:
`{"tickets": ticketsByStatus(s), "meta": {"count": ..., "args": args}}`. -/
def wsToolResult (status : String) (args : Option (List (String × Json))) : Json :=
  Json.obj
    [("tickets", Json.arr ((ticketsByStatus status).map ticketJson)),
     ("meta", Json.obj
        [("count", Json.num (Int.ofNat (ticketsByStatus status).length)),
         ("args", wsArgsJson args)])]

/-- The per-request dispatch switch inside `func wsHandler` (`main.go`).
`now` is the RFC3339 timestamp `time.Now()` read by the `ping` branch.
`tools/call` requires `params.name` to be present (else code
MISSING_TOOL_NAME); a non-string `name` yields `toolName = ""` via the
ignored type assertion `nameAny.(string)`; `params.arguments` is kept only
when it is an object; an unregistered tool name → code TOOL_NOT_FOUND,
message "Unknown tool: `name`".  An unrecognized method → code
UNKNOWN_METHOD, message "Method not supported: `method`". -/
def wsHandleRequest (now : String) (req : WsRequest) : WsResponse :=
  if req.method = "initialize" then
    { id := req.id, method := some "initialized",
      result := some wsInitializeResult, error := none }
  else if req.method = "tools/call" then
    match lookupLast "name" req.params with
    | none =>
      { id := req.id, method := none, result := none,
        error := some ⟨"MISSING_TOOL_NAME", "params.name is required"⟩ }
    | some nameAny =>
      let toolName := match nameAny with | Json.str s => s | _ => ""
      let args : Option (List (String × Json)) :=
        match lookupLast "arguments" req.params with
        | some (Json.obj m) => some m
        | _ => none
      if toolName = "get_pending_tickets" then
        { id := req.id, method := none,
          result := some (wsToolResult "pending" args), error := none }
      else if toolName = "get_done_tickets" then
        { id := req.id, method := none,
          result := some (wsToolResult "done" args), error := none }
      else if toolName = "get_todo_tickets" then
        { id := req.id, method := none,
          result := some (wsToolResult "todo" args), error := none }
      else
        { id := req.id, method := none, result := none,
          error := some ⟨"TOOL_NOT_FOUND", "Unknown tool: " ++ toolName⟩ }
  else if req.method = "ping" then
    { id := req.id, method := none,
      result := some (Json.obj [("pong", Json.str now)]), error := none }
  else
    { id := req.id, method := none, result := none,
      error := some ⟨"UNKNOWN_METHOD", "Method not supported: " ++ req.method⟩ }

/-! ## Statement helpers -/

/-- Reads the tool names out of a `tools/list` result
`{"tools": [{"name": ...}, ...]}`, in order. -/
def resultToolNames (j : Json) : List String :=
  match j with
  | Json.obj fields =>
    match lookupLast "tools" fields with
    | some (Json.arr ts) =>
      ts.filterMap (fun t =>
        match t with
        | Json.obj fs =>
          match lookupLast "name" fs with
          | some (Json.str n) => some n
          | _ => none
        | _ => none)
    | _ => []
  | _ => []

/-- The `name` field of a request's params, when the params are an
object; `none` when params are absent, not an object, or lack the key. -/
def paramsNameField (params : Option Json) : Option Json :=
  match params with
  | some (Json.obj fields) => lookupLast "name" fields
  | _ => none

/-- Whether an optional JSON value is present and a string. -/
def isStringValue (v : Option Json) : Bool :=
  match v with
  | some (Json.str _) => true
  | _ => false

/-! ## Claims -/

/-- Claim C1: for every successfully decoded Request `r`, the Response
produced by dispatching `r` (whether it carries a result or an error) has
an id equal to `r.id`, for every method name including unrecognized
ones. -/
theorem claim1_response_id_echoes_request (req : MCPRequest) :
    (handleRequest req).id = req.id := by
  unfold handleRequest handleInitialize handleToolsList handleToolCall
  repeat' split
  all_goals rfl

/-- Claim C2: every Response produced by dispatching a decoded Request
has exactly one of the result and error fields set — never both, never
neither. -/
theorem claim2_result_error_exclusive (req : MCPRequest) :
    ((handleRequest req).result = none ∧ (handleRequest req).error ≠ none) ∨
    ((handleRequest req).result ≠ none ∧ (handleRequest req).error = none) := by
  unfold handleRequest handleInitialize handleToolsList handleToolCall
  repeat' split
  all_goals simp

/-- Claim C3: for every Request with method `tools/list`, the result is
the fixed `toolsListResult` (so apart from the echoed id the response is
identical across all calls, regardless of params, call order, or
connection), and that result contains exactly the 3 tool descriptors
named `get_pending_tickets`, `get_done_tickets`, `get_todo_tickets`. -/
theorem claim3_tools_list_fixed (req : MCPRequest)
    (h : req.method = "tools/list") :
    handleRequest req =
      { id := req.id, result := some toolsListResult, error := none } ∧
    resultToolNames toolsListResult =
      ["get_pending_tickets", "get_done_tickets", "get_todo_tickets"] := by
  constructor
  · simp [handleRequest, handleToolsList, h]
  · rfl

/-- Witness for claim C3 at the spec's Scenario B request. -/
theorem claim3_tools_list_fixed_witness :
    handleRequest ⟨"2", "tools/list", none⟩ =
      { id := "2", result := some toolsListResult, error := none } ∧
    resultToolNames toolsListResult =
      ["get_pending_tickets", "get_done_tickets", "get_todo_tickets"] :=
  claim3_tools_list_fixed ⟨"2", "tools/list", none⟩ rfl

/-- Claim C4: the three tool results partition the fixed ticket store:
the lists `handleToolCall` hard-codes coincide with filtering the global
`tickets` list by each status; their concatenation is a permutation of
`tickets`; every ticket of the store lies in exactly one of the three
lists; every entry's status matches its tool's status;
`get_done_tickets`'s list is non-empty with every entry of status
`done`; and each tool's list is a sublist of `tickets`, preserving its
insertion order. -/
theorem claim4_tools_partition_tickets :
    (ticketsByStatus "pending" = pendingTickets ∧
     ticketsByStatus "done" = doneTickets ∧
     ticketsByStatus "todo" = todoTickets) ∧
    (ticketsByStatus "pending" ++ ticketsByStatus "todo" ++
      ticketsByStatus "done").Perm tickets ∧
    (tickets.all fun t =>
      ((ticketsByStatus "pending").contains t).toNat +
      ((ticketsByStatus "todo").contains t).toNat +
      ((ticketsByStatus "done").contains t).toNat == 1) = true ∧
    ((ticketsByStatus "pending").all fun t => t.status == "pending") = true ∧
    ((ticketsByStatus "todo").all fun t => t.status == "todo") = true ∧
    ((ticketsByStatus "done").all fun t => t.status == "done") = true ∧
    ticketsByStatus "done" ≠ [] ∧
    (ticketsByStatus "pending").Sublist tickets ∧
    (ticketsByStatus "todo").Sublist tickets ∧
    (ticketsByStatus "done").Sublist tickets := by
  refine ⟨⟨by decide, by decide, by decide⟩, List.isPerm_iff.mp (by decide),
    by decide, by decide, by decide, by decide, by decide,
    by decide, by decide, by decide⟩

/-- Claim C5: every decoded Request whose method is none of
`initialize`, `tools/list`, `tools/call` gets an error Response (never a
silent drop): code -32601 (METHOD_NOT_FOUND) with a message that
includes the offending method name. -/
theorem claim5_unknown_method_error (req : MCPRequest)
    (h1 : req.method ≠ "initialize") (h2 : req.method ≠ "tools/list")
    (h3 : req.method ≠ "tools/call") :
    handleRequest req =
      { id := req.id, result := none,
        error := some ⟨-32601, "Method not found: " ++ req.method⟩ } ∧
    ∃ pre, "Method not found: " ++ req.method = pre ++ req.method := by
  refine ⟨?_, "Method not found: ", rfl⟩
  simp [handleRequest, h1, h2, h3]

/-- Witness for claim C5 at the spec's Scenario F request. -/
theorem claim5_unknown_method_error_witness :
    handleRequest ⟨"5", "unknown/thing", none⟩ =
      { id := "5", result := none,
        error := some ⟨-32601, "Method not found: " ++ "unknown/thing"⟩ } ∧
    ∃ pre, "Method not found: " ++ "unknown/thing" = pre ++ "unknown/thing" :=
  claim5_unknown_method_error ⟨"5", "unknown/thing", none⟩
    (by decide) (by decide) (by decide)

/-- Claim C8: a frame that fails to decode makes the session write an
error Response with code -32700 (PARSE_ERROR) and the best-effort id
`""`, and the loop continues: every later frame of the run, valid ones
included, is still processed exactly as before. -/
theorem claim8_parse_error_continues (pre post : List (Option MCPRequest)) :
    sessionRun (pre ++ none :: post) =
      sessionRun pre ++
        ({ id := "", result := none,
           error := some ⟨-32700, "Parse error"⟩ } : MCPResponse) ::
        sessionRun post := by
  simp [sessionRun, sessionStep]

/-- A successful decode of `ToolCallParams.Name` from a value that is
not a string can only have produced the zero value `""`. -/
theorem decodeNameField_not_string (v : Option Json) (n : String)
    (hv : isStringValue v = false)
    (hok : decodeNameField v = Except.ok n) : n = "" := by
  cases v with
  | none =>
    have h : Except.ok "" = Except.ok n := hok
    cases h
    rfl
  | some j =>
    cases j with
    | null =>
      have h : Except.ok "" = Except.ok n := hok
      cases h
      rfl
    | str s => simp [isStringValue] at hv
    | bool b => exact absurd hok (by simp [decodeNameField])
    | num m => exact absurd hok (by simp [decodeNameField])
    | arr l => exact absurd hok (by simp [decodeNameField])
    | obj fs => exact absurd hok (by simp [decodeNameField])

/-- When the params carry no string `name` field, a successful
`ToolCallParams` decode can only have produced the zero value `""` for
the name. -/
theorem decodeToolCallParams_name_empty (params : Option Json)
    (p : ToolCallParams)
    (hn : isStringValue (paramsNameField params) = false)
    (hok : decodeToolCallParams params = Except.ok p) : p.name = "" := by
  cases params with
  | none => exact absurd hok (by simp [decodeToolCallParams])
  | some j =>
    cases j with
    | null =>
      have h : Except.ok (⟨"", none⟩ : ToolCallParams) = Except.ok p := hok
      cases h
      rfl
    | bool b => exact absurd hok (by simp [decodeToolCallParams])
    | num n => exact absurd hok (by simp [decodeToolCallParams])
    | str s => exact absurd hok (by simp [decodeToolCallParams])
    | arr l => exact absurd hok (by simp [decodeToolCallParams])
    | obj fields =>
      have hn' : isStringValue (lookupLast "name" fields) = false := by
        simpa [paramsNameField] using hn
      have hok' :
          (match decodeNameField (lookupLast "name" fields),
                 decodeArgumentsField (lookupLast "arguments" fields) with
           | Except.ok n, Except.ok a => Except.ok (⟨n, a⟩ : ToolCallParams)
           | _, _ => Except.error ()) = Except.ok p := hok
      split at hok'
      · rename_i n a hname harg
        cases hok'
        exact decodeNameField_not_string _ n hn' hname
      · exact absurd hok' (by simp)

/-- Claim C7: a `tools/call` Request whose params lack a `name` field or
whose `name` field is not a string gets an error Response with code
-32602 (INVALID_PARAMS). -/
theorem claim7_invalid_params_code (req : MCPRequest)
    (hm : req.method = "tools/call")
    (hn : isStringValue (paramsNameField req.params) = false) :
    ∃ msg, handleRequest req =
      { id := req.id, result := none, error := some ⟨-32602, msg⟩ } := by
  have hroute : handleRequest req = handleToolCall req := by
    simp [handleRequest, hm]
  rcases hd : decodeToolCallParams req.params with e | p
  · exact ⟨"Invalid params", by rw [hroute]; simp [handleToolCall, hd]⟩
  · have h0 : p.name = "" := decodeToolCallParams_name_empty req.params p hn hd
    refine ⟨"Unknown tool: " ++ p.name, ?_⟩
    rw [hroute]
    simp [handleToolCall, hd, h0]

/-- Witness for claim C7: `tools/call` with a numeric `name`. -/
theorem claim7_invalid_params_code_witness :
    ∃ msg, handleRequest
        ⟨"7", "tools/call", some (Json.obj [("name", Json.num 5)])⟩ =
      { id := "7", result := none, error := some ⟨-32602, msg⟩ } :=
  claim7_invalid_params_code
    ⟨"7", "tools/call", some (Json.obj [("name", Json.num 5)])⟩ rfl (by decide)

/-- Claim C6 (on the `wsHandler` variant, where the symbolic error codes
live): a `tools/call` Request whose `params.name` is a string not among
the three registered tools gets an error Response with code
TOOL_NOT_FOUND — distinct from the variant's other taxonomy codes
(MISSING_TOOL_NAME, the invalid-params code, as well as INVALID_JSON and
UNKNOWN_METHOD) — whose message includes the offending tool name, with
the request's id echoed. -/
theorem claim6_tool_not_found (now : String) (req : WsRequest)
    (toolName : String) (hm : req.method = "tools/call")
    (hn : lookupLast "name" req.params = some (Json.str toolName))
    (ht : toolName ∉
      ["get_pending_tickets", "get_done_tickets", "get_todo_tickets"]) :
    wsHandleRequest now req =
      { id := req.id, method := none, result := none,
        error := some ⟨"TOOL_NOT_FOUND", "Unknown tool: " ++ toolName⟩ } ∧
    ("TOOL_NOT_FOUND" ≠ "MISSING_TOOL_NAME" ∧
     "TOOL_NOT_FOUND" ≠ "INVALID_JSON" ∧
     "TOOL_NOT_FOUND" ≠ "UNKNOWN_METHOD") ∧
    ∃ pre, "Unknown tool: " ++ toolName = pre ++ toolName := by
  simp only [List.mem_cons, List.not_mem_nil, or_false, not_or] at ht
  obtain ⟨h1, h2, h3⟩ := ht
  refine ⟨?_, ⟨by decide, by decide, by decide⟩, "Unknown tool: ", rfl⟩
  simp [wsHandleRequest, hm, hn, h1, h2, h3]

/-- Witness for claim C6 at the spec's Scenario D request. -/
theorem claim6_tool_not_found_witness :
    wsHandleRequest ""
        ⟨"4", "tools/call", [("name", Json.str "nonexistent")]⟩ =
      { id := "4", method := none, result := none,
        error := some ⟨"TOOL_NOT_FOUND", "Unknown tool: " ++ "nonexistent"⟩ } ∧
    ("TOOL_NOT_FOUND" ≠ "MISSING_TOOL_NAME" ∧
     "TOOL_NOT_FOUND" ≠ "INVALID_JSON" ∧
     "TOOL_NOT_FOUND" ≠ "UNKNOWN_METHOD") ∧
    ∃ pre, "Unknown tool: " ++ "nonexistent" = pre ++ "nonexistent" :=
  claim6_tool_not_found ""
    ⟨"4", "tools/call", [("name", Json.str "nonexistent")]⟩ "nonexistent"
    rfl rfl (by decide)

/-- Claim C9 (on the `wsHandler` variant, which carries the `meta`
object): calling a registered tool with `params.arguments` present as a
mapping yields a success Response whose tickets are computed by
`ticketsByStatus` alone — the arguments never enter the computation —
while the arguments mapping is passed through verbatim as
`result.meta.args`. -/
theorem claim9_arguments_passed_to_meta (now : String) (req : WsRequest)
    (t s : String) (args : List (String × Json))
    (hm : req.method = "tools/call")
    (hn : lookupLast "name" req.params = some (Json.str t))
    (ha : lookupLast "arguments" req.params = some (Json.obj args))
    (ht : (t, s) ∈ [("get_pending_tickets", "pending"),
                    ("get_done_tickets", "done"),
                    ("get_todo_tickets", "todo")]) :
    wsHandleRequest now req =
      { id := req.id, method := none,
        result := some (Json.obj
          [("tickets", Json.arr ((ticketsByStatus s).map ticketJson)),
           ("meta", Json.obj
              [("count", Json.num (Int.ofNat (ticketsByStatus s).length)),
               ("args", Json.obj args)])]),
        error := none } := by
  simp only [List.mem_cons, List.not_mem_nil, or_false,
    Prod.mk.injEq] at ht
  rcases ht with ⟨rfl, rfl⟩ | ⟨rfl, rfl⟩ | ⟨rfl, rfl⟩ <;>
    simp [wsHandleRequest, hm, hn, ha, wsToolResult, wsArgsJson]

/-- Witness for claim C9: `get_done_tickets` with arguments `{"x": 1}`. -/
theorem claim9_arguments_passed_to_meta_witness :
    wsHandleRequest ""
        ⟨"9", "tools/call",
         [("name", Json.str "get_done_tickets"),
          ("arguments", Json.obj [("x", Json.num 1)])]⟩ =
      { id := "9", method := none,
        result := some (Json.obj
          [("tickets", Json.arr ((ticketsByStatus "done").map ticketJson)),
           ("meta", Json.obj
              [("count", Json.num (Int.ofNat (ticketsByStatus "done").length)),
               ("args", Json.obj [("x", Json.num 1)])])]),
        error := none } :=
  claim9_arguments_passed_to_meta ""
    ⟨"9", "tools/call",
     [("name", Json.str "get_done_tickets"),
      ("arguments", Json.obj [("x", Json.num 1)])]⟩
    "get_done_tickets" "done" [("x", Json.num 1)] rfl rfl rfl (by decide)

/-- Claim C10: dispatching is a pure function of the request — two
`tools/call` Requests with the same id and the same registered tool name
that differ only in their arguments mapping produce identical
Responses. -/
theorem claim10_response_ignores_arguments (id t : String)
    (a1 a2 : List (String × Json))
    (ht : t ∈ ["get_pending_tickets", "get_done_tickets",
               "get_todo_tickets"]) :
    handleRequest ⟨id, "tools/call",
        some (Json.obj [("name", Json.str t), ("arguments", Json.obj a1)])⟩ =
    handleRequest ⟨id, "tools/call",
        some (Json.obj [("name", Json.str t), ("arguments", Json.obj a2)])⟩ := by
  simp only [List.mem_cons, List.not_mem_nil, or_false] at ht
  rcases ht with rfl | rfl | rfl <;> rfl

/-- Witness for claim C10: same id and tool name, empty versus non-empty
arguments mapping. -/
theorem claim10_response_ignores_arguments_witness :
    handleRequest ⟨"10", "tools/call",
        some (Json.obj [("name", Json.str "get_done_tickets"),
                        ("arguments", Json.obj [])])⟩ =
    handleRequest ⟨"10", "tools/call",
        some (Json.obj [("name", Json.str "get_done_tickets"),
                        ("arguments", Json.obj [("x", Json.num 1)])])⟩ :=
  claim10_response_ignores_arguments "10" "get_done_tickets"
    [] [("x", Json.num 1)] (by decide)

end MCPServer
